import Mathlib

/-!
# Verification of the Meetra resume-pipeline specification

Shallow embedding of the resume upload/processing subsystem of the Meetra
repository, together with theorems settling the specification's claims.

Part A embeds the code that exists under `apps/web`:
* the `ResumeState` union type (`apps/web/lib/types.ts`),
* the `handleFile` upload handler of the profile page
  (`apps/web/app/(main)/profile/page.tsx`), which validates the mime type
  and then *simulates* the pipeline in the browser
  (the code comment reads "MVP: simulate pipeline; replace with real API
  when P1 (Upload Resume API) is available"), and
* the `apiRequest` fetch wrapper (`apps/web/lib/api-client.ts`).

Part B models, from the specification's words, those backend components
(malware scanner, text extractor, field extractor, submit endpoint,
active-resume resolver) that the repository does not yet contain.
-/

namespace Meetra

/-! ## Part A.1: the frontend resume state and upload handler -/

/-- `type ResumeState = 'uploaded' | 'scanned' | 'parsed' | 'failed'`
from `apps/web/lib/types.ts`. -/
inductive ResumeState where
  | uploaded
  | scanned
  | parsed
  | failed
  deriving DecidableEq, Fintype

/-- The `allowed` mime-type list of `handleFile`. -/
def allowedMimes : List String :=
  ["application/pdf",
   "application/vnd.openxmlformats-officedocument.wordprocessingml.document"]

/-- A submitted file as `handleFile` sees it: only `file.type` (the mime
type) is inspected by the handler; the size and contents are carried along
to show they are not consulted. -/
structure FileInput where
  mime : String
  byteSize : Nat
  deriving DecidableEq

/-- The component state of `ProfilePage` that `handleFile` reads or writes:
`resumeState`, `uploadError` and `uploading`.  The handler performs no API
call at all (the pipeline is simulated in the browser), so the count of
ResumeDocument records it has created is carried explicitly to state frame
properties about it. -/
structure ProfileState where
  resumeState : Option ResumeState
  uploadError : Option String
  uploading : Bool
  createdResumeDocuments : Nat
  deriving DecidableEq

/-- The initial component state: `useState<ResumeState | null>(null)`,
`useState<string | null>(null)`, `useState(false)`. -/
def initialProfileState : ProfileState :=
  { resumeState := none, uploadError := none, uploading := false,
    createdResumeDocuments := 0 }

/-- Embedding of `handleFile` (profile page, lines 40-62).  Returns the
final component state together with the sequence of values passed to
`setResumeState` during the run, in order.

Source logic:
```
if (!file || uploading) return;
if (!allowed.includes(file.type)) { setUploadError('Please upload a PDF or DOCX file.'); return; }
setUploadError(null); setUploading(true);
setResumeState('uploaded'); await ...;
setResumeState('scanned'); await ...;
setResumeState('parsed'); setUploading(false);
```
-/
def handleFile (s : ProfileState) (file : FileInput) :
    ProfileState × List ResumeState :=
  if s.uploading then (s, [])
  else if ¬ allowedMimes.contains file.mime then
    ({ s with uploadError := some "Please upload a PDF or DOCX file." }, [])
  else
    ({ s with uploadError := none,
              uploading := false,
              resumeState := some ResumeState.parsed },
     [ResumeState.uploaded, ResumeState.scanned, ResumeState.parsed])

/-- Lifecycle rank of the four frontend states: `uploaded` precedes
`scanned`, which precedes the terminal states `parsed`/`failed`. -/
def stateRank : ResumeState → Nat
  | ResumeState.uploaded => 0
  | ResumeState.scanned => 1
  | ResumeState.parsed => 2
  | ResumeState.failed => 2

/-! ## Part A.2: the `apiRequest` fetch wrapper -/

/-- A JSON value, as `JSON.parse` can produce it. -/
inductive Json where
  | null
  | bool (b : Bool)
  | num (n : Int)
  | str (s : String)
  | arr (elems : List Json)
  | obj (fields : List (String × Json))

/-- The `ApiError` shape of `api-client.ts`: a `detail` (string or object
in the TypeScript type; any JSON value at runtime) and a `statusCode`. -/
structure ApiError where
  detail : Json
  statusCode : Nat

/-- The result shape `{ data?: T; error?: ApiError }` of `apiRequest`:
exactly one of the two fields is returned.  `ok` carries the parsed
response body (`none` models `undefined`, produced by `parseResponse` for
an empty or unparseable body). -/
inductive ApiResult where
  | ok (body : Option Json)
  | err (e : ApiError)

/-- Reading a received response's body (`await res.text()` inside
`parseResponse`, then `JSON.parse`): either the text is read, yielding the
parse result (`none` models `undefined`, produced for an empty or
unparseable body), or the body read itself rejects (e.g. the connection
drops mid-body), carrying the rejection's message. -/
inductive BodyRead where
  | ok (body : Option Json)
  | failed (message : String)

/-- What the `fetch` call can come back with: a rejection (network error),
carrying the `Error`'s message when the thrown value was an `Error`, or a
received response with a status, a status text and the outcome of reading
its body. -/
inductive FetchOutcome where
  | networkError (message : Option String)
  | response (status : Nat) (statusText : String) (body : BodyRead)

/-- `typeof data === 'object' && data && 'detail' in data ? data.detail :
res.statusText`, as a lookup: only a non-null JSON object can supply a
`detail` field (in JavaScript, `typeof null` is `'object'` but `null` is
falsy, and an array has no `detail` key). -/
def jsonDetail : Option Json → Option Json
  | some (Json.obj fields) =>
      (fields.find? (fun f => f.1 = "detail")).map (·.2)
  | _ => none

/-- Embedding of `apiRequest` (`api-client.ts`, lines 18-54), as a function
of the fetch outcome.  `Except.ok` is a value returned to the caller;
`Except.error` is an uncaught rejection escaping `apiRequest`.

The source's try/catch covers only the `fetch` call: a rejected fetch is
caught and returned as an error with `statusCode` 0.  The subsequent
`await parseResponse(res)` — which performs `await res.text()` — runs
outside any try block and before the `res.ok` check, so a body read that
rejects propagates out of `apiRequest` uncaught.  When the body read
succeeds, a non-2xx response (`!res.ok`) is returned as an error carrying
the body's `detail` when present, else the status text, with the
response's status; a 2xx response returns the parsed body as `data`. -/
def apiRequest (outcome : FetchOutcome) : Except String ApiResult :=
  match outcome with
  | FetchOutcome.networkError message =>
      Except.ok (ApiResult.err
        { detail := Json.str ("Network error. Check API URL and CORS settings. ("
            ++ message.getD "Failed to fetch" ++ ")"),
          statusCode := 0 })
  | FetchOutcome.response status statusText bodyRead =>
      match bodyRead with
      | BodyRead.failed message => Except.error message
      | BodyRead.ok body =>
          if 200 ≤ status ∧ status < 300 then
            Except.ok (ApiResult.ok body)
          else
            Except.ok (ApiResult.err
              { detail := (jsonDetail body).getD (Json.str statusText),
                statusCode := status })

/-! ## Part B: backend components modelled from the spec

The repository's backend pipeline is, in the spec's own words, "currently
stubbed": no malware scanner, text extractor, field extractor, submit
endpoint or active-resume resolver exists under the sources — the profile
page only simulates the pipeline.  The definitions below are therefore
modelled from the specification's words (each doc comment says from which
section), and claims settled against them are marked `spec-modelled`. -/

/-- Modelled from the spec (§3): the seven-state lifecycle
`UPLOADED | SCANNING | SCANNED | EXTRACTING | PARSING | PARSED | FAILED`
of the (not yet implemented) backend ResumeDocument record. -/
inductive PipelineState where
  | UPLOADED
  | SCANNING
  | SCANNED
  | EXTRACTING
  | PARSING
  | PARSED
  | FAILED
  deriving DecidableEq, Fintype

/-- Modelled from the spec (§7): the stable error codes of terminal
failures and synchronous submission rejections. -/
inductive PipelineError where
  | UnsupportedFormat
  | PayloadTooLarge
  | MalwareDetected
  | ScanUnavailable
  | ExtractionFailed
  | ParsingFailed
  deriving DecidableEq

/-- Modelled from the spec (§4.2): the malware scanner's binary verdict. -/
inductive ScanVerdict where
  | Clean
  | Rejected
  deriving DecidableEq

/-- Modelled from the spec (§4.1/§6): a submitted document, carrying the
attributes the missing backend stages consult — declared mime type, byte
size, page count, textual content, and whether the bytes are malicious
(the abstract input that determines the deterministic scan verdict). -/
structure Document where
  mime : String
  byteSize : Nat
  pages : Nat
  text : String
  malicious : Bool
  deriving DecidableEq

/-- Modelled from the spec (§4.2): the scanner inspects the raw bytes and
returns a verdict, deterministically for identical content. -/
def scan (d : Document) : ScanVerdict :=
  if d.malicious then ScanVerdict.Rejected else ScanVerdict.Clean

/-- Modelled from the spec (§4.3): configured page ceiling of the text
extractor (an implementation-configurable policy value per §9). -/
def pageCeiling : Nat := 50

/-- Modelled from the spec (§4.3): the text extractor converts a clean
document into plain text, failing deterministically (`ExtractionFailed`)
on documents beyond the configured page ceiling. -/
def extractText (d : Document) : Option String :=
  if d.pages ≤ pageCeiling then some d.text else none

/-- A structured field with its confidence score in [0,1] (spec §3). -/
structure SkillField where
  value : String
  confidence : ℚ
  deriving DecidableEq

/-- Modelled from the spec (§3): the structured result created only on
reaching `PARSED`. -/
structure ExtractedProfile where
  skills : List SkillField
  deriving DecidableEq

/-- Split a character list at every occurrence of the separator. -/
def splitOnChar (sep : Char) : List Char → List (List Char)
  | [] => [[]]
  | c :: rest =>
      let tail := splitOnChar sep rest
      if c = sep then [] :: tail
      else
        match tail with
        | [] => [[c]]
        | h :: t => (c :: h) :: t

/-- Drop leading and trailing spaces from a character list. -/
def trimSpaces (l : List Char) : List Char :=
  ((l.dropWhile (· = ' ')).reverse.dropWhile (· = ' ')).reverse

/-- Strip an expected leading character sequence, or fail. -/
def stripLeading : List Char → List Char → Option (List Char)
  | [], l => some l
  | _, [] => none
  | p :: ps, c :: cs => if p = c then stripLeading ps cs else none

/-- Modelled from the spec (§4.4/§8): the skill values declared by one
line of resume text — a line of the form `Skills: a, b, c` yields the
comma-separated values, trimmed, empty entries dropped. -/
def lineSkills (line : List Char) : List (List Char) :=
  match stripLeading ("Skills:".data) line with
  | none => []
  | some rest =>
      ((splitOnChar ',' rest).map trimSpaces).filter (fun w => ¬ w = [])

/-- Modelled from the spec (§4.4): the field extractor parses plain text
into structured fields, each tagged with a confidence score; every
extracted field is included (never silently dropped), and only total
failure to produce any usable field yields `ParsingFailed` (`none`). -/
def extractFields (text : String) : Option ExtractedProfile :=
  let skills :=
    ((splitOnChar '\n' text.data).map lineSkills).flatten
  if skills = [] then none
  else some ⟨skills.map (fun w => { value := String.mk w, confidence := 1 })⟩

/-- The observable outcome of one pipeline run for one ResumeDocument:
the sequence of persisted states (each intermediate state is persisted
before its stage runs, spec §4.1), the final state, the error code of a
terminal failure, the ExtractedProfile created on `PARSED`, and how many
times the scan stage executed. -/
structure RunResult where
  trace : List PipelineState
  final : PipelineState
  errorCode : Option PipelineError
  profile : Option ExtractedProfile
  scanAttempts : Nat
  deriving DecidableEq

/-- Modelled from the spec (§4.1): the orchestrator drives an accepted
document through scan, extraction and parsing.  A scan rejection is an
immediate terminal `FAILED` with `MalwareDetected` and no retry; an
extraction failure is terminal `ExtractionFailed`; producing no usable
field is terminal `ParsingFailed`; otherwise the run commits the
ExtractedProfile and reaches `PARSED`. -/
def runPipeline (d : Document) : RunResult :=
  match scan d with
  | ScanVerdict.Rejected =>
      { trace := [PipelineState.UPLOADED, PipelineState.SCANNING,
                  PipelineState.FAILED],
        final := PipelineState.FAILED,
        errorCode := some PipelineError.MalwareDetected,
        profile := none, scanAttempts := 1 }
  | ScanVerdict.Clean =>
      match extractText d with
      | none =>
          { trace := [PipelineState.UPLOADED, PipelineState.SCANNING,
                      PipelineState.SCANNED, PipelineState.EXTRACTING,
                      PipelineState.FAILED],
            final := PipelineState.FAILED,
            errorCode := some PipelineError.ExtractionFailed,
            profile := none, scanAttempts := 1 }
      | some text =>
          match extractFields text with
          | none =>
              { trace := [PipelineState.UPLOADED, PipelineState.SCANNING,
                          PipelineState.SCANNED, PipelineState.EXTRACTING,
                          PipelineState.PARSING, PipelineState.FAILED],
                final := PipelineState.FAILED,
                errorCode := some PipelineError.ParsingFailed,
                profile := none, scanAttempts := 1 }
          | some p =>
              { trace := [PipelineState.UPLOADED, PipelineState.SCANNING,
                          PipelineState.SCANNED, PipelineState.EXTRACTING,
                          PipelineState.PARSING, PipelineState.PARSED],
                final := PipelineState.PARSED,
                errorCode := none,
                profile := some p, scanAttempts := 1 }

/-- Modelled from the spec (§6/§9): the configured byte ceiling of
`submit` (an implementation-configurable policy value). -/
def byteCeiling : Nat := 10485760

/-- Modelled from the spec (§4.1/§6): `submit` validates the submission
synchronously — `PayloadTooLarge` above the configured byte ceiling,
`UnsupportedFormat` for a mime type outside {PDF, DOCX} — and only on
success creates the ResumeDocument record in `UPLOADED`.  The result
carries the created record's initial state; an error means no record was
created. -/
def submit (d : Document) : Except PipelineError PipelineState :=
  if d.byteSize > byteCeiling then Except.error PipelineError.PayloadTooLarge
  else if ¬ allowedMimes.contains d.mime then
    Except.error PipelineError.UnsupportedFormat
  else Except.ok PipelineState.UPLOADED

/-- The record, if any, that a submission created (`none` on rejection). -/
def submittedRecord (d : Document) : Option PipelineState :=
  (submit d).toOption

/-- Modelled from the spec (§3/§4.5): the per-user active-resume pointer,
remembering the pointed-to resume id and its submission time. -/
structure ActivePointer where
  resumeId : Nat
  submittedAt : Nat
  deriving DecidableEq

/-- Modelled from the spec (§4.5): `on_parsed` updates the pointer to the
newly parsed resume only if its submission time is at least that of the
currently pointed-to resume (monotonic-by-submission-order commit). -/
def on_parsed (ptr : Option ActivePointer) (resumeId submittedAt : Nat) :
    Option ActivePointer :=
  match ptr with
  | none => some { resumeId := resumeId, submittedAt := submittedAt }
  | some p =>
      if p.submittedAt ≤ submittedAt then
        some { resumeId := resumeId, submittedAt := submittedAt }
      else ptr

/-- Modelled from the spec (§4.5): `on_failed` never touches the
pointer. -/
def on_failed (ptr : Option ActivePointer) : Option ActivePointer := ptr

/-- The resolver update performed when a run for resume `resumeId`
(submitted at `submittedAt`) finishes with result `r`: only a run that
reached `PARSED` may move the pointer; a `FAILED` run goes through
`on_failed` (spec §4.5). -/
def applyOutcome (ptr : Option ActivePointer) (r : RunResult)
    (resumeId submittedAt : Nat) : Option ActivePointer :=
  if r.final = PipelineState.PARSED then on_parsed ptr resumeId submittedAt
  else if r.final = PipelineState.FAILED then on_failed ptr
  else ptr

/-! ## Concrete inputs used by witnesses and scenarios -/

/-- A small PDF file input. -/
def pdfFile : FileInput := { mime := "application/pdf", byteSize := 1000 }

/-- A PNG file input (not an accepted mime type). -/
def pngFile : FileInput := { mime := "image/png", byteSize := 1000 }

/-- The end-to-end scenario document of spec §8: a 2-page DOCX whose text
is `Skills: Python, FastAPI`. -/
def docC7 : Document :=
  { mime := "application/vnd.openxmlformats-officedocument.wordprocessingml.document",
    byteSize := 20000, pages := 2, text := "Skills: Python, FastAPI",
    malicious := false }

/-- A malicious PDF document (its bytes fail the malware scan). -/
def malwareDoc : Document :=
  { mime := "application/pdf", byteSize := 4096, pages := 1,
    text := "Skills: Python", malicious := true }

/-- A PDF document one byte above the configured byte ceiling. -/
def oversizeDoc : Document :=
  { mime := "application/pdf", byteSize := 10485761, pages := 3,
    text := "Skills: Go", malicious := false }

/-! ## Theorems settling the claims -/

/-- C1: a file whose mime type is not PDF or DOCX is rejected
synchronously by `handleFile` (when no upload is already in flight): the
error message is set, no ResumeDocument is created, the displayed resume
state is unchanged, and no pipeline state transition is emitted. -/
theorem handleFile_rejects_unsupported_mime
    (s : ProfileState) (file : FileInput)
    (hidle : s.uploading = false)
    (hmime : allowedMimes.contains file.mime = false) :
    (handleFile s file).1.uploadError
        = some "Please upload a PDF or DOCX file." ∧
    (handleFile s file).1.resumeState = s.resumeState ∧
    (handleFile s file).1.createdResumeDocuments
        = s.createdResumeDocuments ∧
    (handleFile s file).2 = [] := by
  have hm : ¬ file.mime ∈ allowedMimes := by simpa using hmime
  simp [handleFile, hidle, hm]

/-- Witness for C1: a `image/png` submission in the initial state. -/
theorem handleFile_rejects_unsupported_mime_witness :
    initialProfileState.uploading = false ∧
    allowedMimes.contains pngFile.mime = false ∧
    ((handleFile initialProfileState pngFile).1.uploadError
        = some "Please upload a PDF or DOCX file." ∧
     (handleFile initialProfileState pngFile).1.resumeState
        = initialProfileState.resumeState ∧
     (handleFile initialProfileState pngFile).1.createdResumeDocuments
        = initialProfileState.createdResumeDocuments ∧
     (handleFile initialProfileState pngFile).2 = []) :=
  ⟨rfl, by decide,
   handleFile_rejects_unsupported_mime initialProfileState pngFile rfl
     (by decide)⟩

/-- C2: within one run of the upload handler, the sequence of resume
states set is strictly increasing in lifecycle rank (uploaded before
scanned before parsed/failed) and never revisits a state. -/
theorem handleFile_trace_monotonic (s : ProfileState) (file : FileInput) :
    List.Chain' (fun a b => stateRank a < stateRank b)
      (handleFile s file).2 ∧
    (handleFile s file).2.Nodup := by
  have h : (handleFile s file).2 = [] ∨
      (handleFile s file).2
        = [ResumeState.uploaded, ResumeState.scanned, ResumeState.parsed] := by
    unfold handleFile
    split
    · exact Or.inl rfl
    · split <;> first | exact Or.inl rfl | exact Or.inr rfl
  rcases h with h | h <;> rw [h]
  · exact ⟨List.chain'_nil, List.nodup_nil⟩
  · refine ⟨?_, by decide⟩
    norm_num [List.chain'_cons, List.chain'_singleton, stateRank]

/-- C3 counterexample: the claim's seven-state lifecycle does not match
the code.  The frontend `ResumeState` type has exactly four values (not
seven), and a successful run of the upload handler persists exactly
`uploaded, scanned, parsed` — no `SCANNING`/`EXTRACTING`/`PARSING`
intermediate states exist or are passed through. -/
theorem resumeState_not_seven_states :
    Fintype.card ResumeState = 4 ∧
    Fintype.card ResumeState ≠ 7 ∧
    (handleFile initialProfileState pdfFile).2
      = [ResumeState.uploaded, ResumeState.scanned, ResumeState.parsed] :=
  ⟨by decide, by decide, by decide⟩

/-- C3 amended: the resume lifecycle state takes values from the
four-state set `uploaded | scanned | parsed | failed`, and every
successful run passes through `uploaded` and then `scanned` before
reaching `parsed`. -/
theorem resumeState_four_states_and_successful_run
    (s : ProfileState) (file : FileInput)
    (hidle : s.uploading = false)
    (hmime : allowedMimes.contains file.mime = true) :
    Fintype.card ResumeState = 4 ∧
    (∀ x : ResumeState, x = ResumeState.uploaded ∨ x = ResumeState.scanned
      ∨ x = ResumeState.parsed ∨ x = ResumeState.failed) ∧
    (handleFile s file).2
      = [ResumeState.uploaded, ResumeState.scanned, ResumeState.parsed] := by
  have hm : file.mime ∈ allowedMimes := by simpa using hmime
  refine ⟨by decide, by decide, ?_⟩
  simp [handleFile, hidle, hm]

/-- Witness for the amended C3: a PDF submission in the initial state. -/
theorem resumeState_four_states_witness :
    initialProfileState.uploading = false ∧
    allowedMimes.contains pdfFile.mime = true ∧
    (Fintype.card ResumeState = 4 ∧
     (∀ x : ResumeState, x = ResumeState.uploaded ∨ x = ResumeState.scanned
       ∨ x = ResumeState.parsed ∨ x = ResumeState.failed) ∧
     (handleFile initialProfileState pdfFile).2
       = [ResumeState.uploaded, ResumeState.scanned, ResumeState.parsed]) :=
  ⟨rfl, by decide,
   resumeState_four_states_and_successful_run initialProfileState pdfFile rfl
     (by decide)⟩

/-- C4 (spec-modelled): a document whose bytes fail the malware scan ends
in terminal `FAILED` with `MalwareDetected`, the scan stage runs exactly
once (no retry), and no ExtractedProfile is created. -/
theorem runPipeline_malware_rejected (d : Document)
    (h : scan d = ScanVerdict.Rejected) :
    (runPipeline d).final = PipelineState.FAILED ∧
    (runPipeline d).errorCode = some PipelineError.MalwareDetected ∧
    (runPipeline d).profile = none ∧
    (runPipeline d).scanAttempts = 1 := by
  simp [runPipeline, h]

/-- Witness for C4: the malicious document. -/
theorem runPipeline_malware_rejected_witness :
    scan malwareDoc = ScanVerdict.Rejected ∧
    ((runPipeline malwareDoc).final = PipelineState.FAILED ∧
     (runPipeline malwareDoc).errorCode
        = some PipelineError.MalwareDetected ∧
     (runPipeline malwareDoc).profile = none ∧
     (runPipeline malwareDoc).scanAttempts = 1) :=
  ⟨by decide, runPipeline_malware_rejected malwareDoc (by decide)⟩

/-- C5 (spec-modelled): a pipeline run that ends in `FAILED` leaves the
owner's active-resume pointer unchanged, while a re-upload (submitted no
earlier than the currently pointed-to resume) that reaches `PARSED` moves
the pointer to the new resume id. -/
theorem activeResumePointer_update (ptr : Option ActivePointer)
    (r : RunResult) (rid t : Nat) :
    (r.final = PipelineState.FAILED → applyOutcome ptr r rid t = ptr) ∧
    (r.final = PipelineState.PARSED →
      (∀ p, ptr = some p → p.submittedAt ≤ t) →
      applyOutcome ptr r rid t
        = some { resumeId := rid, submittedAt := t }) := by
  constructor
  · intro hf
    simp [applyOutcome, on_failed, hf]
  · intro hp hord
    cases ptr with
    | none => simp [applyOutcome, on_parsed, hp]
    | some p => simp [applyOutcome, on_parsed, hp, hord p rfl]

/-- Witness for C5: a pointer at resume 1 (submitted at time 5); the
malware run for resume 2 leaves it unchanged, the successful run for
resume 2 (submitted at time 9) moves it. -/
theorem activeResumePointer_update_witness :
    ((runPipeline malwareDoc).final = PipelineState.FAILED ∧
     applyOutcome (some { resumeId := 1, submittedAt := 5 })
        (runPipeline malwareDoc) 2 9
       = some { resumeId := 1, submittedAt := 5 }) ∧
    ((runPipeline docC7).final = PipelineState.PARSED ∧
     applyOutcome (some { resumeId := 1, submittedAt := 5 })
        (runPipeline docC7) 2 9
       = some { resumeId := 2, submittedAt := 9 }) :=
  ⟨⟨by decide,
    (activeResumePointer_update (some { resumeId := 1, submittedAt := 5 })
      (runPipeline malwareDoc) 2 9).1 (by decide)⟩,
   ⟨by decide,
    (activeResumePointer_update (some { resumeId := 1, submittedAt := 5 })
      (runPipeline docC7) 2 9).2 (by decide)
      (by intro p hp; cases hp; decide)⟩⟩

/-- C6: invoking the upload handler while an upload is already processing
(the `uploading` flag is set) starts no run and changes no state: the
component state is returned untouched and no transition is emitted. -/
theorem handleFile_noop_while_uploading (s : ProfileState)
    (file : FileInput) (h : s.uploading = true) :
    handleFile s file = (s, []) := by
  simp [handleFile, h]

/-- Witness for C6: a busy state with a PDF submission. -/
theorem handleFile_noop_while_uploading_witness :
    ({ initialProfileState with uploading := true } : ProfileState).uploading
        = true ∧
    handleFile { initialProfileState with uploading := true } pdfFile
      = ({ initialProfileState with uploading := true }, []) :=
  ⟨rfl,
   handleFile_noop_while_uploading
     { initialProfileState with uploading := true } pdfFile rfl⟩

/-- C7 (spec-modelled): submitting the 2-page DOCX whose text is
`Skills: Python, FastAPI` is accepted, and its pipeline run ends in
`PARSED` with an ExtractedProfile whose skills contain `Python` and
`FastAPI`, each with confidence strictly greater than 0. -/
theorem docC7_parsed_with_skills :
    docC7.pages = 2 ∧
    docC7.mime
      = "application/vnd.openxmlformats-officedocument.wordprocessingml.document" ∧
    docC7.text = "Skills: Python, FastAPI" ∧
    submittedRecord docC7 = some PipelineState.UPLOADED ∧
    (runPipeline docC7).final = PipelineState.PARSED ∧
    ∃ p, (runPipeline docC7).profile = some p ∧
      (∃ f ∈ p.skills, f.value = "Python" ∧ 0 < f.confidence) ∧
      (∃ f ∈ p.skills, f.value = "FastAPI" ∧ 0 < f.confidence) := by
  refine ⟨rfl, rfl, rfl, by decide, by decide,
    ⟨{ skills := [{ value := "Python", confidence := 1 },
                  { value := "FastAPI", confidence := 1 }] }, by decide,
     ?_, ?_⟩⟩
  · exact ⟨{ value := "Python", confidence := 1 }, by decide, rfl, by norm_num⟩
  · exact ⟨{ value := "FastAPI", confidence := 1 }, by decide, rfl, by norm_num⟩

/-- C8 (spec-modelled): a submission whose byte size exceeds the
configured byte ceiling fails synchronously with `PayloadTooLarge` and no
record is created. -/
theorem submit_payload_too_large (d : Document)
    (h : byteCeiling < d.byteSize) :
    submit d = Except.error PipelineError.PayloadTooLarge ∧
    submittedRecord d = none := by
  constructor
  · simp [submit, h]
  · simp [submittedRecord, submit, h, Except.toOption]

/-- Witness for C8: a PDF one byte above the ceiling. -/
theorem submit_payload_too_large_witness :
    byteCeiling < oversizeDoc.byteSize ∧
    (submit oversizeDoc = Except.error PipelineError.PayloadTooLarge ∧
     submittedRecord oversizeDoc = none) :=
  ⟨by decide, submit_payload_too_large oversizeDoc (by decide)⟩

/-- C9: for every file whose mime type is PDF or DOCX (when no upload is
already in flight), the upload handler always ends with resume state
`parsed`, the emitted state sequence is exactly
`uploaded, scanned, parsed` independently of the file's contents, and the
`failed` state is unreachable through the handler. -/
theorem handleFile_accepted_always_parses (s : ProfileState)
    (file : FileInput)
    (hidle : s.uploading = false)
    (hmime : allowedMimes.contains file.mime = true) :
    (handleFile s file).1.resumeState = some ResumeState.parsed ∧
    (handleFile s file).2
      = [ResumeState.uploaded, ResumeState.scanned, ResumeState.parsed] ∧
    ResumeState.failed ∉ (handleFile s file).2 := by
  have hm : file.mime ∈ allowedMimes := by simpa using hmime
  refine ⟨?_, ?_, ?_⟩ <;> simp [handleFile, hidle, hm]

/-- Witness for C9: a PDF submission in the initial state. -/
theorem handleFile_accepted_always_parses_witness :
    initialProfileState.uploading = false ∧
    allowedMimes.contains pdfFile.mime = true ∧
    ((handleFile initialProfileState pdfFile).1.resumeState
        = some ResumeState.parsed ∧
     (handleFile initialProfileState pdfFile).2
        = [ResumeState.uploaded, ResumeState.scanned, ResumeState.parsed] ∧
     ResumeState.failed ∉ (handleFile initialProfileState pdfFile).2) :=
  ⟨rfl, by decide,
   handleFile_accepted_always_parses initialProfileState pdfFile rfl
     (by decide)⟩

/-- C10 counterexample: `apiRequest` does not never-throw.  The source's
try/catch covers only `fetch`; for a received 200 response whose body read
rejects, `await res.text()` throws outside the try block, so `apiRequest`
rejects instead of returning a `{data}` or `{error}` value — and in
particular that failure is not returned as a statusCode-0 error. -/
theorem apiRequest_throws_on_body_read_failure :
    apiRequest (FetchOutcome.response 200 "OK"
        (BodyRead.failed "connection reset during body read"))
      = Except.error "connection reset during body read" ∧
    ∀ r : ApiResult,
      apiRequest (FetchOutcome.response 200 "OK"
          (BodyRead.failed "connection reset during body read"))
        ≠ Except.ok r :=
  ⟨rfl, fun _ h => Except.noConfusion h⟩

/-- C10 amended: whenever the response body read succeeds, `apiRequest`
returns either a data result or an error result without throwing; a
network failure of the `fetch` call itself is returned as an error with
status code 0 and the descriptive network-error detail string; a non-2xx
response whose body was read becomes an error carrying the response
body's `detail` field when present (else the status text) and the
response's status code.  A response whose body read rejects makes
`apiRequest` itself reject rather than return an error. -/
theorem apiRequest_classified :
    (∀ (status : Nat) (statusText : String) (body : Option Json),
      (∃ b, apiRequest (FetchOutcome.response status statusText
              (BodyRead.ok body)) = Except.ok (ApiResult.ok b)) ∨
      (∃ e, apiRequest (FetchOutcome.response status statusText
              (BodyRead.ok body)) = Except.ok (ApiResult.err e))) ∧
    (∀ message : Option String,
      apiRequest (FetchOutcome.networkError message)
        = Except.ok (ApiResult.err
            { detail := Json.str
                ("Network error. Check API URL and CORS settings. ("
                  ++ message.getD "Failed to fetch" ++ ")"),
              statusCode := 0 })) ∧
    (∀ (status : Nat) (statusText : String) (body : Option Json),
      ¬ (200 ≤ status ∧ status < 300) →
      apiRequest (FetchOutcome.response status statusText (BodyRead.ok body))
        = Except.ok (ApiResult.err
            { detail := (jsonDetail body).getD (Json.str statusText),
              statusCode := status })) ∧
    (∀ (status : Nat) (statusText message : String),
      apiRequest (FetchOutcome.response status statusText
          (BodyRead.failed message))
        = Except.error message) := by
  refine ⟨?_, ?_, ?_, ?_⟩
  · intro status statusText body
    by_cases h : 200 ≤ status ∧ status < 300
    · exact Or.inl ⟨body, by simp [apiRequest, h]⟩
    · right
      refine ⟨{ detail := (jsonDetail body).getD (Json.str statusText),
                statusCode := status }, ?_⟩
      simp [apiRequest, h]
  · intro message
    rfl
  · intro status statusText body h
    simp [apiRequest, h]
  · intro status statusText message
    rfl

/-- Witness for the amended C10: a 404 response with an empty,
successfully read body yields an error with the status text as detail and
status code 404. -/
theorem apiRequest_classified_witness :
    apiRequest (FetchOutcome.response 404 "Not Found" (BodyRead.ok none))
      = Except.ok (ApiResult.err
          { detail := Json.str "Not Found", statusCode := 404 }) :=
  apiRequest_classified.2.2.1 404 "Not Found" none (by decide)

end Meetra
